import Mathlib

/-!
# x-saee-esp32: shallow embedding of `main/iot_main.c`, `main/light.c`
# and `main/shadow_demo_main.c`

The C functions are embedded as Lean functions.  Calls to functions that live
outside the embedded files (the MQTT helpers, `sleep`, the GPIO driver, the
logging macros) are recorded, in program order, as a list of `Event`s; the
value an external call returns is supplied by an oracle argument.  Loops that
may run forever are given a fuel argument: `none` means that the fuel ran out
before the function returned.
-/

namespace XSaee

/-! ## Constants of the C library and of the SDK headers -/

/-- The constant `EXIT_SUCCESS` of `<stdlib.h>`. -/
def EXIT_SUCCESS : Int := 0

/-- The constant `EXIT_FAILURE` of `<stdlib.h>`. -/
def EXIT_FAILURE : Int := 1

/-! ## Observable events -/

/-- An argument of a `printf`-style log call. -/
inductive LogArg where
  | str (s : String) : LogArg
  | int (i : Int) : LogArg
  deriving DecidableEq

/-- The calls a function makes to code outside the embedded files, with the
arguments that matter. -/
inductive Event where
  /-- A call `EstablishMqttSession( eventCallback )`. -/
  | EstablishMqttSession : Event
  /-- A call `SubscribeToTopic( pTopicFilter, topicFilterLength )`. -/
  | SubscribeToTopic (pTopicFilter : String) (topicFilterLength : Nat) : Event
  /-- A call `sleep( seconds )`. -/
  | sleep (seconds : Nat) : Event
  /-- A call `gpio_set_level( gpio_num, level )`. -/
  | gpio_set_level (gpio_num : Nat) (level : Nat) : Event
  /-- A call `HandleOtherIncomingPacket( pPacketInfo, packetIdentifier )`, with the
  type byte of the packet. -/
  | HandleOtherIncomingPacket (type : Nat) (packetIdentifier : Nat) : Event
  | LogInfo (format : String) (args : List LogArg) : Event
  | LogWarn (format : String) (args : List LogArg) : Event
  | LogError (format : String) (args : List LogArg) : Event
  /-- A call `gpio_reset_pin( gpio_num )`. -/
  | gpio_reset_pin (gpio_num : Nat) : Event
  /-- A call `gpio_set_direction( gpio_num, mode )`. -/
  | gpio_set_direction (gpio_num : Nat) (mode : Nat) : Event
  deriving DecidableEq

/-- The argument of a `sleep` call, `none` for any other event. -/
def Event.sleepSeconds : Event → Option Nat
  | .sleep s => some s
  | _ => none

/-- Whether an event is a call of `SubscribeToTopic`. -/
def Event.isSubscribe : Event → Bool
  | .SubscribeToTopic _ _ => true
  | _ => false

/-! ## `iot_main.c`: `aws_iot_main` -/

/-- The `do { ... } while( returnStatus == EXIT_FAILURE )` loop of
`aws_iot_main`.  `EstablishMqttSession n` is the value the `n`-th call (counted
from 0) of the helper returns; `calls` is the number of calls made so far.  The
result is the final `returnStatus` and the events of the remaining iterations. -/
def aws_iot_main_loop (EstablishMqttSession : Nat → Int) :
    Nat → Nat → Option (Int × List Event)
  | 0, _ => none
  | fuel + 1, calls =>
    let returnStatus := EstablishMqttSession calls
    if returnStatus = EXIT_FAILURE then
      match aws_iot_main_loop EstablishMqttSession fuel (calls + 1) with
      | none => none
      | some (r, tr) =>
        some (r, Event.EstablishMqttSession
                  :: Event.LogWarn "Error on connect. Retrying..." []
                  :: Event.sleep 5 :: tr)
    else
      some (returnStatus, [Event.EstablishMqttSession])

/-- The function `aws_iot_main`: the retry loop, then the success log, then
`return returnStatus`.  The initial value `EXIT_FAILURE` of `returnStatus` is
overwritten by the first iteration before it is read. -/
def aws_iot_main (EstablishMqttSession : Nat → Int) (fuel : Nat) :
    Option (Int × List Event) :=
  match aws_iot_main_loop EstablishMqttSession fuel 0 with
  | none => none
  | some (returnStatus, tr) =>
    if returnStatus = EXIT_SUCCESS then
      some (returnStatus, tr ++ [Event.LogInfo "IoT code completed successfully." []])
    else
      some (returnStatus, tr)

/-- The events of one failed attempt of `aws_iot_main`: the call, the warning,
the wait. -/
def failedAttempt : List Event :=
  [Event.EstablishMqttSession, Event.LogWarn "Error on connect. Retrying..." [],
   Event.sleep 5]

/-- The events of `k` failed attempts in a row. -/
def failedAttempts : Nat → List Event
  | 0 => []
  | k + 1 => failedAttempt ++ failedAttempts k

/-! ## `light.h`, `light.c` -/

/-- The pin `GPIO_NUM_2` of the ESP-IDF header `driver/gpio.h`. -/
def GPIO_NUM_2 : Nat := 2

/-- The macro of `light.h`: `#define BLINK_GPIO GPIO_NUM_2`. -/
def BLINK_GPIO : Nat := GPIO_NUM_2

/-- The state of the device that the embedded functions read and write: the
file-scope variable `s_led_state` of `light.c` (a `uint8_t`), and the calls
made so far to code outside the embedded files. -/
structure Device where
  s_led_state : Nat
  trace : List Event
  deriving DecidableEq

/-- The state at start-up: `static uint8_t s_led_state = 0;`. -/
def Device.init : Device := { s_led_state := 0, trace := [] }

/-- The function `Toggle_light`: `s_led_state = !s_led_state;` then
`gpio_set_level(BLINK_GPIO, s_led_state);`. -/
def Toggle_light (d : Device) : Device :=
  let s_led_state := if d.s_led_state = 0 then 1 else 0
  { s_led_state := s_led_state,
    trace := d.trace ++ [Event.gpio_set_level BLINK_GPIO s_led_state] }

/-- The constant `GPIO_MODE_OUTPUT` of the ESP-IDF header `hal/gpio_types.h`. -/
def GPIO_MODE_OUTPUT : Nat := 2

/-- The function `Configure_light`: `gpio_reset_pin(BLINK_GPIO);` then
`gpio_set_direction(BLINK_GPIO, GPIO_MODE_OUTPUT);`. -/
def Configure_light (d : Device) : Device :=
  { d with trace := d.trace ++
      [Event.gpio_reset_pin BLINK_GPIO,
       Event.gpio_set_direction BLINK_GPIO GPIO_MODE_OUTPUT] }

/-- The operations of the module `light.c`, the only code with access to the
`static` variable `s_led_state`. -/
inductive LightOp where
  | configure
  | toggle
  deriving DecidableEq

/-- The effect of one operation of `light.c`: a call of `Configure_light` or
of `Toggle_light`. -/
def LightOp.run : LightOp → Device → Device
  | .configure, d => Configure_light d
  | .toggle, d => Toggle_light d

/-- The effect of a sequence of operations of `light.c`, first to last. -/
def runLight : List LightOp → Device → Device
  | [], d => d
  | op :: ops, d => runLight ops (op.run d)

/-! ## The coreMQTT types the callbacks read -/

/-- The constant `MQTT_PACKET_TYPE_PUBLISH` of `core_mqtt_serializer.h`. -/
def MQTT_PACKET_TYPE_PUBLISH : Nat := 0x30

/-- The type `MQTTPacketInfo_t`: the type byte of the incoming packet (a `uint8_t`). -/
structure MQTTPacketInfo_t where
  type : Nat
  deriving DecidableEq

/-- The type `MQTTPublishInfo_t`: topic name and payload of an incoming publish. -/
structure MQTTPublishInfo_t where
  pTopicName : String
  pPayload : String
  deriving DecidableEq

/-- The type `MQTTDeserializedInfo_t`: the packet identifier (a `uint16_t`) and the
publish information, `none` for a NULL `pPublishInfo`. -/
structure MQTTDeserializedInfo_t where
  packetIdentifier : Nat
  pPublishInfo : Option MQTTPublishInfo_t
  deriving DecidableEq

/-! ## `iot_main.c`: `eventCallback` -/

namespace iot_main

/-- The function `eventCallback` of `iot_main.c`.  The three pointer arguments are asserted
non-NULL and `pMqttContext` is not used.  The result is `none` when
`assert( pDeserializedInfo->pPublishInfo != NULL )` fails.  The helper
`HandleOtherIncomingPacket` is not in the embedded files: its call is recorded
as an event, and it is taken not to call into `light.c`, the only code that can
write the `static` variable `s_led_state`. -/
def eventCallback (d : Device) (pPacketInfo : MQTTPacketInfo_t)
    (pDeserializedInfo : MQTTDeserializedInfo_t) : Option Device :=
  let packetIdentifier := pDeserializedInfo.packetIdentifier
  if pPacketInfo.type &&& 0xF0 = MQTT_PACKET_TYPE_PUBLISH then
    match pDeserializedInfo.pPublishInfo with
    | none => none
    | some pPublishInfo =>
      some (Toggle_light
        { d with trace := d.trace ++
            [Event.LogInfo "pPublishInfo->pTopicName:%s." [LogArg.str pPublishInfo.pTopicName]] })
  else
    some { d with trace := d.trace ++
            [Event.HandleOtherIncomingPacket pPacketInfo.type packetIdentifier] }

/-- Whether `eventCallback` takes a packet for a publish: the test
`( pPacketInfo->type & 0xF0U ) == MQTT_PACKET_TYPE_PUBLISH`. -/
def isPublish (pPacketInfo : MQTTPacketInfo_t) : Bool :=
  decide (pPacketInfo.type &&& 0xF0 = MQTT_PACKET_TYPE_PUBLISH)

/-- The callback invoked on a sequence of incoming packets, first to last, as
the MQTT stack does; `none` when an assertion fails on the way. -/
def handlePackets :
    Device → List (MQTTPacketInfo_t × MQTTDeserializedInfo_t) → Option Device
  | d, [] => some d
  | d, (pPacketInfo, pDeserializedInfo) :: rest =>
    match eventCallback d pPacketInfo pDeserializedInfo with
    | none => none
    | some d' => handlePackets d' rest

end iot_main

/-! ## `shadow_demo_main.c` -/

/-- The enumeration `ShadowMessageType_t` of the Device Shadow library header `shadow.h`. -/
inductive ShadowMessageType_t where
  | ShadowMessageTypeGetAccepted
  | ShadowMessageTypeGetRejected
  | ShadowMessageTypeDeleteAccepted
  | ShadowMessageTypeDeleteRejected
  | ShadowMessageTypeUpdateAccepted
  | ShadowMessageTypeUpdateRejected
  | ShadowMessageTypeUpdateDocuments
  | ShadowMessageTypeUpdateDelta
  | ShadowMessageTypeMaxNum
  deriving DecidableEq

namespace shadow_demo_main

/-- The local variables of `eventCallback` of `shadow_demo_main.c` when the
function returns; a NULL pointer is `none`. -/
structure Locals where
  messageType : ShadowMessageType_t
  pThingName : Option String
  thingNameLength : Nat
  pShadowName : Option String
  shadowNameLength : Nat
  packetIdentifier : Nat
  deriving DecidableEq

/-- The function `eventCallback` of `shadow_demo_main.c`: the locals are initialised, the
packet identifier is read and one line is logged.  The file has no file-scope
variable, and the function writes through none of its arguments. -/
def eventCallback (_pPacketInfo : MQTTPacketInfo_t)
    (pDeserializedInfo : MQTTDeserializedInfo_t) : Locals × List Event :=
  let messageType := ShadowMessageType_t.ShadowMessageTypeMaxNum
  let pThingName : Option String := none
  let thingNameLength := 0
  let pShadowName : Option String := none
  let shadowNameLength := 0
  let packetIdentifier := pDeserializedInfo.packetIdentifier
  ({ messageType := messageType, pThingName := pThingName,
     thingNameLength := thingNameLength, pShadowName := pShadowName,
     shadowNameLength := shadowNameLength, packetIdentifier := packetIdentifier },
   [Event.LogInfo "mensagem X" []])

/-- The loop `while( true ) { sleep( 5000 ); }` run for at most `fuel`
iterations: whether the loop was left, and the events of the iterations. -/
def sleep_loop : Nat → Bool × List Event
  | 0 => (false, [])
  | fuel + 1 =>
    if true then
      let (left, tr) := sleep_loop fuel
      (left, Event.sleep 5000 :: tr)
    else
      (true, [])

/-- The value of `sizeof` on a string literal: its characters and the
terminating NUL byte. -/
def sizeof_literal (s : String) : Nat := s.length + 1

/-- The function `aws_iot_demo_main`.  `establishResult` and `subscribeResult` are the values
`EstablishMqttSession` and `SubscribeToTopic` return when called.  The result
is the value returned, `none` while the function has not returned, and the
events so far.  The block of `if( returnStatus == EXIT_SUCCESS )` that follows
the log of the result is empty in the source. -/
def aws_iot_demo_main (establishResult subscribeResult : Int) (fuel : Nat) :
    Option Int × List Event :=
  let returnStatus := establishResult
  let tr := [Event.EstablishMqttSession]
  let (returnStatus, tr) :=
    if returnStatus = EXIT_FAILURE then
      (returnStatus, tr ++ [Event.LogError "Failed to connect to MQTT broker." []])
    else
      let returnStatus := subscribeResult
      (returnStatus,
        tr ++ [Event.SubscribeToTopic "$aws/things/saee/shadow/name/luz-gabriel"
                (sizeof_literal "$aws/things/saee/shadow/name/luz-gabriel"),
               Event.LogInfo "result %d" [LogArg.int returnStatus]])
  let (left, loop) := sleep_loop fuel
  (if left then some returnStatus else none, tr ++ loop)

end shadow_demo_main

/-! ## The shadow topic grammar and the payloads of the specification -/

/-- The `{op}` segment of a shadow topic. -/
inductive ShadowOp where
  | delete
  | update
  deriving DecidableEq

/-- The `{sub}` segment of a shadow topic. -/
inductive ShadowSub where
  | delta
  | accepted
  | rejected
  deriving DecidableEq

/-- The text of an `{op}` segment. -/
def ShadowOp.text : ShadowOp → String
  | .delete => "delete"
  | .update => "update"

/-- The text of a `{sub}` segment. -/
def ShadowSub.text : ShadowSub → String
  | .delta => "delta"
  | .accepted => "accepted"
  | .rejected => "rejected"

/-- Modelled from the spec: the topic grammar
`$aws/things/{thing}/shadow[/name/{shadow}]/{op}[/{sub}]` (the macros
`SHADOW_TOPIC_STR_*` of the Device Shadow library, named in the doc comment of
`aws_iot_demo_main`, are not under src/).  A classic shadow has no shadow name;
the bare publish topics have no `{sub}`. -/
def buildTopic (thing : String) (shadow : Option String) (op : ShadowOp)
    (sub : Option ShadowSub) : String :=
  "$aws/things/" ++ thing ++ "/shadow"
    ++ (match shadow with
        | none => ""
        | some name => "/name/" ++ name)
    ++ "/" ++ op.text
    ++ (match sub with
        | none => ""
        | some s => "/" ++ s.text)

/-- Modelled from the spec: a thing or shadow identifier is non-empty, within
the length bound, and has no `/` and no whitespace. -/
def validName (bound : Nat) (name : String) : Bool :=
  decide (0 < name.length) && decide (name.length ≤ bound)
    && name.data.all (fun c => c != '/' && !c.isWhitespace)

/-- Modelled from the spec: a topic matches the grammar when it is built from
valid identifiers, with or without a shadow name and with or without `{sub}`. -/
def MatchesGrammar (bound : Nat) (topic : String) : Prop :=
  ∃ (thing : String) (shadow : Option String) (op : ShadowOp) (sub : Option ShadowSub),
    validName bound thing = true
    ∧ (∀ name, shadow = some name → validName bound name = true)
    ∧ topic = buildTopic thing shadow op sub

/-- Modelled from the spec: the message type of an `(op, sub)` pair:
`DeleteAccepted`, `DeleteRejected`, `UpdateDelta`, `UpdateAccepted`,
`UpdateRejected`; `delete/delta` is no message type. -/
def messageTypeOf : ShadowOp → ShadowSub → Option ShadowMessageType_t
  | .delete, .accepted => some .ShadowMessageTypeDeleteAccepted
  | .delete, .rejected => some .ShadowMessageTypeDeleteRejected
  | .update, .delta => some .ShadowMessageTypeUpdateDelta
  | .update, .accepted => some .ShadowMessageTypeUpdateAccepted
  | .update, .rejected => some .ShadowMessageTypeUpdateRejected
  | .delete, .delta => none

/-- Modelled from the spec: the delta payload of the end-to-end scenario,
`\x7b"state":\x7b"powerOn":v\x7d\x7d`, for a desired `powerOn` value `v`. -/
def deltaPayload (v : Nat) : String :=
  "\x7b\"state\":\x7b\"powerOn\":" ++ toString v ++ "\x7d\x7d"

/-- Modelled from the spec: the payload of an `update/accepted` message that
echoes a client token, `\x7b"clientToken":"T"\x7d`. -/
def acceptedPayload (token : Nat) : String :=
  "\x7b\"clientToken\":\"" ++ toString token ++ "\"\x7d"

/-! ## Lemmas on the retry loop -/

theorem aws_iot_main_loop_retry (est : Nat → Int) (k : Nat) :
    ∀ (calls fuel : Nat), (∀ i, i < k → est (calls + i) = EXIT_FAILURE) →
      est (calls + k) ≠ EXIT_FAILURE → k + 1 ≤ fuel →
      aws_iot_main_loop est fuel calls
        = some (est (calls + k), failedAttempts k ++ [Event.EstablishMqttSession]) := by
  induction k with
  | zero =>
    intro calls fuel _ hok hfuel
    obtain ⟨f, rfl⟩ : ∃ f, fuel = f + 1 := ⟨fuel - 1, by omega⟩
    simp only [Nat.add_zero] at hok
    simp [aws_iot_main_loop, hok, failedAttempts]
  | succ k ih =>
    intro calls fuel hfail hok hfuel
    obtain ⟨f, rfl⟩ : ∃ f, fuel = f + 1 := ⟨fuel - 1, by omega⟩
    have h0 : est calls = EXIT_FAILURE := by simpa using hfail 0 (by omega)
    have hrec := ih (calls + 1) f
      (fun i hi => by
        have := hfail (i + 1) (by omega)
        rwa [show calls + 1 + i = calls + (i + 1) by omega])
      (by rwa [show calls + 1 + k = calls + (k + 1) by omega])
      (by omega)
    rw [show calls + 1 + k = calls + (k + 1) by omega] at hrec
    simp [aws_iot_main_loop, h0, hrec, failedAttempts, failedAttempt]

theorem aws_iot_main_loop_ne_failure (est : Nat → Int) :
    ∀ (fuel calls : Nat) (r : Int) (tr : List Event),
      aws_iot_main_loop est fuel calls = some (r, tr) → r ≠ EXIT_FAILURE := by
  intro fuel
  induction fuel with
  | zero => intro calls r tr h; simp [aws_iot_main_loop] at h
  | succ f ih =>
    intro calls r tr h
    simp only [aws_iot_main_loop] at h
    split at h
    · cases hrec : aws_iot_main_loop est f (calls + 1) with
      | none => simp [hrec] at h
      | some p =>
        obtain ⟨r', tr'⟩ := p
        simp only [hrec, Option.some.injEq, Prod.mk.injEq] at h
        exact h.1 ▸ ih (calls + 1) r' tr' hrec
    · rename_i hne
      simp only [Option.some.injEq, Prod.mk.injEq] at h
      exact h.1 ▸ hne

theorem aws_iot_main_loop_result (est : Nat → Int) :
    ∀ (fuel calls : Nat) (r : Int) (tr : List Event),
      aws_iot_main_loop est fuel calls = some (r, tr) → ∃ n, r = est n := by
  intro fuel
  induction fuel with
  | zero => intro calls r tr h; simp [aws_iot_main_loop] at h
  | succ f ih =>
    intro calls r tr h
    simp only [aws_iot_main_loop] at h
    split at h
    · cases hrec : aws_iot_main_loop est f (calls + 1) with
      | none => simp [hrec] at h
      | some p =>
        obtain ⟨r', tr'⟩ := p
        simp only [hrec, Option.some.injEq, Prod.mk.injEq] at h
        exact h.1 ▸ ih (calls + 1) r' tr' hrec
    · simp only [Option.some.injEq, Prod.mk.injEq] at h
      exact ⟨calls, h.1.symm⟩

theorem count_failedAttempts (k : Nat) :
    (failedAttempts k).count Event.EstablishMqttSession = k := by
  induction k with
  | zero => rfl
  | succ k ih =>
    simp only [failedAttempts, List.count_append, ih]
    have : failedAttempt.count Event.EstablishMqttSession = 1 := by decide
    omega

theorem sleeps_failedAttempts (k : Nat) :
    (failedAttempts k).filterMap Event.sleepSeconds = List.replicate k 5 := by
  induction k with
  | zero => rfl
  | succ k ih =>
    simp only [failedAttempts, List.filterMap_append, ih]
    have : failedAttempt.filterMap Event.sleepSeconds = [5] := by decide
    rw [this]
    rfl

/-! ## `aws_iot_main`: retry loop -/

/-- C1. Retry liveness of `aws_iot_main`: when `EstablishMqttSession` returns
`EXIT_FAILURE` on its first `k` calls and `EXIT_SUCCESS` on call `k + 1`, the
function returns (with any fuel of at least `k + 1` iterations) the value
`EXIT_SUCCESS`, and its events are `k` times "call, warning, `sleep(5)`",
then the last call and the success log: `EstablishMqttSession` is called
exactly `k + 1` times, `sleep` exactly `k` times, each time with the delay 5,
once after each failed attempt and before the next one. -/
theorem aws_iot_main_retry_liveness (k : Nat) (est : Nat → Int)
    (hfail : ∀ i, i < k → est i = EXIT_FAILURE) (hok : est k = EXIT_SUCCESS) :
    ∃ tr : List Event,
      (∀ fuel, k + 1 ≤ fuel → aws_iot_main est fuel = some (EXIT_SUCCESS, tr))
      ∧ tr = failedAttempts k ++
          [Event.EstablishMqttSession, Event.LogInfo "IoT code completed successfully." []]
      ∧ tr.count Event.EstablishMqttSession = k + 1
      ∧ tr.filterMap Event.sleepSeconds = List.replicate k 5
      ∧ (tr.filterMap Event.sleepSeconds).length = k := by
  refine ⟨failedAttempts k ++
    [Event.EstablishMqttSession, Event.LogInfo "IoT code completed successfully." []],
    ?_, rfl, ?_, ?_, ?_⟩
  · intro fuel hfuel
    have hne : est (0 + k) ≠ EXIT_FAILURE := by
      rw [Nat.zero_add, hok]; decide
    have h := aws_iot_main_loop_retry est k 0 fuel
      (fun i hi => by rw [Nat.zero_add]; exact hfail i hi) hne hfuel
    rw [Nat.zero_add] at h
    simp [aws_iot_main, h, hok]
  · rw [List.count_append, count_failedAttempts]
    have : [Event.EstablishMqttSession,
        Event.LogInfo "IoT code completed successfully." []].count
          Event.EstablishMqttSession = 1 := by decide
    omega
  · rw [List.filterMap_append, sleeps_failedAttempts]
    have : [Event.EstablishMqttSession,
        Event.LogInfo "IoT code completed successfully." []].filterMap
          Event.sleepSeconds = [] := by decide
    rw [this, List.append_nil]
  · rw [List.filterMap_append, sleeps_failedAttempts]
    have : [Event.EstablishMqttSession,
        Event.LogInfo "IoT code completed successfully." []].filterMap
          Event.sleepSeconds = [] := by decide
    rw [this, List.append_nil, List.length_replicate]

/-- Witness of C1: two failed attempts, then a success. -/
theorem aws_iot_main_retry_liveness_witness :
    ∃ tr : List Event,
      (∀ fuel, 2 + 1 ≤ fuel →
        aws_iot_main (fun n => if n < 2 then EXIT_FAILURE else EXIT_SUCCESS) fuel
          = some (EXIT_SUCCESS, tr))
      ∧ tr = failedAttempts 2 ++
          [Event.EstablishMqttSession, Event.LogInfo "IoT code completed successfully." []]
      ∧ tr.count Event.EstablishMqttSession = 2 + 1
      ∧ tr.filterMap Event.sleepSeconds = List.replicate 2 5
      ∧ (tr.filterMap Event.sleepSeconds).length = 2 :=
  aws_iot_main_retry_liveness 2 (fun n => if n < 2 then EXIT_FAILURE else EXIT_SUCCESS)
    (fun i hi => by simp [hi]) (by simp)

/-- C2. A connection failure is never surfaced by `aws_iot_main`: whatever the
results of `EstablishMqttSession`, a value the function returns is not
`EXIT_FAILURE`; and when every result is `EXIT_FAILURE` or `EXIT_SUCCESS`, the
value returned is `EXIT_SUCCESS`. -/
theorem aws_iot_main_never_returns_failure (est : Nat → Int) (fuel : Nat)
    (r : Int) (tr : List Event) (h : aws_iot_main est fuel = some (r, tr)) :
    r ≠ EXIT_FAILURE
    ∧ ((∀ n, est n = EXIT_FAILURE ∨ est n = EXIT_SUCCESS) → r = EXIT_SUCCESS) := by
  unfold aws_iot_main at h
  cases hloop : aws_iot_main_loop est fuel 0 with
  | none => simp [hloop] at h
  | some p =>
    obtain ⟨r', tr'⟩ := p
    have hne := aws_iot_main_loop_ne_failure est fuel 0 r' tr' hloop
    obtain ⟨n, hn⟩ := aws_iot_main_loop_result est fuel 0 r' tr' hloop
    have hr : r = r' := by
      simp only [hloop] at h
      split at h <;> simp only [Option.some.injEq, Prod.mk.injEq] at h <;> exact h.1.symm
    subst hr
    refine ⟨hne, fun hbin => ?_⟩
    rcases hbin n with hf | hs
    · exact absurd (hn.trans hf) hne
    · exact hn.trans hs

/-- Witness of C2: two failed attempts, then a success, with fuel 3. -/
theorem aws_iot_main_never_returns_failure_witness :
    aws_iot_main (fun n => if n < 2 then EXIT_FAILURE else EXIT_SUCCESS) 3
        = some (EXIT_SUCCESS, failedAttempts 2 ++
            [Event.EstablishMqttSession, Event.LogInfo "IoT code completed successfully." []])
    ∧ EXIT_SUCCESS ≠ EXIT_FAILURE
    ∧ ((∀ n, (fun n => if n < 2 then EXIT_FAILURE else EXIT_SUCCESS) n = EXIT_FAILURE
          ∨ (fun n => if n < 2 then EXIT_FAILURE else EXIT_SUCCESS) n = EXIT_SUCCESS)
        → EXIT_SUCCESS = EXIT_SUCCESS) :=
  ⟨by decide,
   aws_iot_main_never_returns_failure
    (fun n => if n < 2 then EXIT_FAILURE else EXIT_SUCCESS) 3 EXIT_SUCCESS
    (failedAttempts 2 ++
      [Event.EstablishMqttSession, Event.LogInfo "IoT code completed successfully." []])
    (by decide)⟩

/-! ## `eventCallback` of `iot_main.c` -/

theorem eventCallback_publish (d : Device) (pkt : MQTTPacketInfo_t)
    (info : MQTTDeserializedInfo_t) (p : MQTTPublishInfo_t)
    (hpub : pkt.type &&& 0xF0 = MQTT_PACKET_TYPE_PUBLISH)
    (hinfo : info.pPublishInfo = some p) :
    iot_main.eventCallback d pkt info
      = some { s_led_state := if d.s_led_state = 0 then 1 else 0,
               trace := d.trace ++
                 [Event.LogInfo "pPublishInfo->pTopicName:%s." [LogArg.str p.pTopicName],
                  Event.gpio_set_level BLINK_GPIO (if d.s_led_state = 0 then 1 else 0)] } := by
  simp [iot_main.eventCallback, hpub, hinfo, Toggle_light]

theorem toggled_ne (s : Nat) : (if s = 0 then 1 else 0) ≠ s := by
  by_cases h : s = 0
  · simp [h]
  · simpa [h] using Ne.symm h

theorem buildTopic_head (t : String) (s : Option String) (o : ShadowOp)
    (u : Option ShadowSub) : (buildTopic t s o u).data.head? = some '$' := by
  simp [buildTopic, String.data_append]

theorem buildTopic_getLast (t : String) (s : Option String) (o : ShadowOp)
    (u : Option ShadowSub) :
    (buildTopic t s o u).data.getLast? = some 'a'
    ∨ (buildTopic t s o u).data.getLast? = some 'd'
    ∨ (buildTopic t s o u).data.getLast? = some 'e' := by
  rw [← List.head?_reverse]
  rcases o with _ | _ <;> rcases u with _ | (_ | _ | _) <;>
    simp [buildTopic, String.data_append, ShadowOp.text, ShadowSub.text]

theorem not_matchesGrammar_luz_gabriel (bound : Nat) :
    ¬ MatchesGrammar bound "/luz/gabriel" := by
  rintro ⟨t, s, o, u, -, -, h⟩
  have := buildTopic_head t s o u
  rw [← h] at this
  exact absurd this (by decide)

/-- C3, counterexample. The light is on (`s_led_state = 1`) and a delta with
`powerOn = 1` arrives: after the callback `s_led_state` is 0 and the level 0 was
written to the GPIO, not the desired 1. -/
theorem eventCallback_delta_on_switches_off :
    deltaPayload 1 = "\x7b\"state\":\x7b\"powerOn\":1\x7d\x7d"
    ∧ iot_main.eventCallback { s_led_state := 1, trace := [] } { type := 0x30 }
        { packetIdentifier := 1,
          pPublishInfo := some
            { pTopicName := "$aws/things/saee/shadow/name/luz-gabriel/update/delta",
              pPayload := deltaPayload 1 } }
      = some { s_led_state := 0,
               trace := [Event.LogInfo "pPublishInfo->pTopicName:%s."
                           [LogArg.str "$aws/things/saee/shadow/name/luz-gabriel/update/delta"],
                         Event.gpio_set_level 2 0] } := by
  decide

/-- C3, amended. For every prior light state and every inbound publish that
carries a desired `powerOn` value `v` in {0, 1}, the light state after the
callback, which is also the level written to the GPIO, is the negation of the
prior state (1 when it was 0, else 0), whatever `v` is; so it equals `v` exactly
when the prior state is 0 and `v = 1`, or the prior state is not 0 and `v = 0`. -/
theorem eventCallback_delta_toggles (d : Device) (pkt : MQTTPacketInfo_t)
    (info : MQTTDeserializedInfo_t) (topic : String) (v : Nat)
    (hv : v = 0 ∨ v = 1)
    (hpub : pkt.type &&& 0xF0 = MQTT_PACKET_TYPE_PUBLISH)
    (hinfo : info.pPublishInfo = some { pTopicName := topic, pPayload := deltaPayload v }) :
    ∃ d' : Device, iot_main.eventCallback d pkt info = some d'
      ∧ d'.s_led_state = (if d.s_led_state = 0 then 1 else 0)
      ∧ d'.trace = d.trace ++
          [Event.LogInfo "pPublishInfo->pTopicName:%s." [LogArg.str topic],
           Event.gpio_set_level BLINK_GPIO d'.s_led_state]
      ∧ (d'.s_led_state = v ↔ (d.s_led_state = 0 ↔ v = 1)) := by
  refine ⟨_, eventCallback_publish d pkt info _ hpub hinfo, rfl, rfl, ?_⟩
  by_cases h : d.s_led_state = 0 <;> rcases hv with rfl | rfl <;> simp [h]

/-- Witness of C3, amended: the light is off and a delta with `powerOn = 1`
arrives in a publish with the QoS 1 flag set. -/
theorem eventCallback_delta_toggles_witness :
    ∃ d' : Device,
      iot_main.eventCallback { s_led_state := 0, trace := [] } { type := 0x32 }
          { packetIdentifier := 7,
            pPublishInfo := some { pTopicName := "t", pPayload := deltaPayload 1 } } = some d'
      ∧ d'.s_led_state = (if (0 : Nat) = 0 then 1 else 0)
      ∧ d'.trace = [] ++
          [Event.LogInfo "pPublishInfo->pTopicName:%s." [LogArg.str "t"],
           Event.gpio_set_level BLINK_GPIO d'.s_led_state]
      ∧ (d'.s_led_state = 1 ↔ ((0 : Nat) = 0 ↔ (1 : Nat) = 1)) :=
  eventCallback_delta_toggles { s_led_state := 0, trace := [] } { type := 0x32 }
    { packetIdentifier := 7,
      pPublishInfo := some { pTopicName := "t", pPayload := deltaPayload 1 } }
    "t" 1 (Or.inr rfl) (by decide) rfl

/-- C4, counterexample. The light is off and a publish arrives whose payload, a
truncated document, is not a well-formed shadow document: the message is not
dropped, `s_led_state` becomes 1 and the level 1 is written to the GPIO. -/
theorem eventCallback_malformed_payload_switches_on :
    iot_main.eventCallback { s_led_state := 0, trace := [] } { type := 0x30 }
        { packetIdentifier := 1,
          pPublishInfo := some
            { pTopicName := "$aws/things/saee/shadow/name/luz-gabriel/update/delta",
              pPayload := "\x7b\"state\":" } }
      = some { s_led_state := 1,
               trace := [Event.LogInfo "pPublishInfo->pTopicName:%s."
                           [LogArg.str "$aws/things/saee/shadow/name/luz-gabriel/update/delta"],
                         Event.gpio_set_level 2 1] } := by
  decide

/-- C4, amended. A publish is handled without its payload being read: replacing
the payload by any other, well-formed or not, gives the same result, and for
every payload the light state after the callback is the negation of the state
before, hence changed, and that level is written to the GPIO. -/
theorem eventCallback_payload_not_read (d : Device) (pkt : MQTTPacketInfo_t)
    (info : MQTTDeserializedInfo_t) (p : MQTTPublishInfo_t) (payload : String)
    (hpub : pkt.type &&& 0xF0 = MQTT_PACKET_TYPE_PUBLISH)
    (hinfo : info.pPublishInfo = some p) :
    iot_main.eventCallback d pkt
        { info with pPublishInfo := some { p with pPayload := payload } }
      = iot_main.eventCallback d pkt info
    ∧ ∃ d' : Device, iot_main.eventCallback d pkt info = some d'
        ∧ d'.s_led_state = (if d.s_led_state = 0 then 1 else 0)
        ∧ d'.s_led_state ≠ d.s_led_state
        ∧ d'.trace.getLast? = some (Event.gpio_set_level BLINK_GPIO d'.s_led_state) := by
  refine ⟨?_, _, eventCallback_publish d pkt info p hpub hinfo, rfl, toggled_ne _, ?_⟩
  · rw [eventCallback_publish d pkt info p hpub hinfo,
      eventCallback_publish d pkt _ { p with pPayload := payload } hpub rfl]
  · simp

/-- Witness of C4, amended: a truncated payload and an empty payload. -/
theorem eventCallback_payload_not_read_witness :
    iot_main.eventCallback Device.init { type := 0x30 }
        { packetIdentifier := 1,
          pPublishInfo := some { pTopicName := "t", pPayload := "" } }
      = iot_main.eventCallback Device.init { type := 0x30 }
        { packetIdentifier := 1,
          pPublishInfo := some { pTopicName := "t", pPayload := "\x7b\"state\":" } }
    ∧ ∃ d' : Device,
        iot_main.eventCallback Device.init { type := 0x30 }
          { packetIdentifier := 1,
            pPublishInfo := some { pTopicName := "t", pPayload := "\x7b\"state\":" } } = some d'
        ∧ d'.s_led_state = (if Device.init.s_led_state = 0 then 1 else 0)
        ∧ d'.s_led_state ≠ Device.init.s_led_state
        ∧ d'.trace.getLast? = some (Event.gpio_set_level BLINK_GPIO d'.s_led_state) :=
  eventCallback_payload_not_read Device.init { type := 0x30 }
    { packetIdentifier := 1,
      pPublishInfo := some { pTopicName := "t", pPayload := "\x7b\"state\":" } }
    { pTopicName := "t", pPayload := "\x7b\"state\":" } "" (by decide) rfl

/-- C5, at the failing input. The topic `/luz/gabriel` does not match the
grammar, for any length bound, yet the publish is acted on and switches the
light on: `s_led_state` goes from 0 to 1 and the level 1 is written to the
GPIO. -/
theorem eventCallback_non_shadow_topic_switches_on :
    (∀ bound, ¬ MatchesGrammar bound "/luz/gabriel")
    ∧ iot_main.eventCallback { s_led_state := 0, trace := [] } { type := 0x30 }
        { packetIdentifier := 1,
          pPublishInfo := some { pTopicName := "/luz/gabriel", pPayload := deltaPayload 1 } }
      = some { s_led_state := 1,
               trace := [Event.LogInfo "pPublishInfo->pTopicName:%s."
                           [LogArg.str "/luz/gabriel"],
                         Event.gpio_set_level 2 1] } :=
  ⟨not_matchesGrammar_luz_gabriel, by decide⟩

/-! ## `aws_iot_demo_main` -/

theorem sleep_loop_eq (fuel : Nat) :
    shadow_demo_main.sleep_loop fuel = (false, List.replicate fuel (Event.sleep 5000)) := by
  induction fuel with
  | zero => rfl
  | succ n ih => simp [shadow_demo_main.sleep_loop, ih, List.replicate_succ]

theorem aws_iot_demo_main_eq (est sub : Int) (fuel : Nat) :
    shadow_demo_main.aws_iot_demo_main est sub fuel
      = (none,
         (if est = EXIT_FAILURE then
            [Event.EstablishMqttSession,
             Event.LogError "Failed to connect to MQTT broker." []]
          else
            [Event.EstablishMqttSession,
             Event.SubscribeToTopic "$aws/things/saee/shadow/name/luz-gabriel" 41,
             Event.LogInfo "result %d" [LogArg.int sub]])
          ++ List.replicate fuel (Event.sleep 5000)) := by
  have h41 : shadow_demo_main.sizeof_literal "$aws/things/saee/shadow/name/luz-gabriel" = 41 := by
    decide
  unfold shadow_demo_main.aws_iot_demo_main
  rw [sleep_loop_eq, h41]
  by_cases h : est = EXIT_FAILURE <;> simp [h]

/-- C6. `aws_iot_demo_main` connects exactly once and subscribes only on an
established session: at every point of every run `EstablishMqttSession` has been
called exactly once, as the first event; if it returned `EXIT_FAILURE`, no
event is a call of `SubscribeToTopic`; otherwise the second event is the one
call of `SubscribeToTopic`, and none of the later events is a call of
`SubscribeToTopic` or of `EstablishMqttSession`. -/
theorem aws_iot_demo_main_connects_once (est sub : Int) (fuel : Nat) :
    (shadow_demo_main.aws_iot_demo_main est sub fuel).2.count Event.EstablishMqttSession = 1
    ∧ (shadow_demo_main.aws_iot_demo_main est sub fuel).2.head?
        = some Event.EstablishMqttSession
    ∧ (est = EXIT_FAILURE →
        ∀ e ∈ (shadow_demo_main.aws_iot_demo_main est sub fuel).2, e.isSubscribe = false)
    ∧ (est ≠ EXIT_FAILURE →
        ∃ rest : List Event,
          (shadow_demo_main.aws_iot_demo_main est sub fuel).2
            = Event.EstablishMqttSession
              :: Event.SubscribeToTopic "$aws/things/saee/shadow/name/luz-gabriel" 41
              :: rest
          ∧ ∀ e ∈ rest, e.isSubscribe = false ∧ e ≠ Event.EstablishMqttSession) := by
  rw [aws_iot_demo_main_eq]
  have hcount : (List.replicate fuel (Event.sleep 5000)).count Event.EstablishMqttSession = 0 :=
    List.count_eq_zero.mpr (fun hmem => by cases List.eq_of_mem_replicate hmem)
  refine ⟨?_, ?_, ?_, ?_⟩
  · by_cases h : est = EXIT_FAILURE
    · simp only [h, if_true, List.count_append, hcount]; decide
    · simp only [h, if_false, List.count_append, hcount]
      simp [List.count_cons]
  · by_cases h : est = EXIT_FAILURE <;> simp [h]
  · intro h e he
    simp only [h, if_true, List.mem_append, List.mem_cons, List.mem_singleton,
      List.not_mem_nil, or_false] at he
    rcases he with (rfl | rfl) | he
    · rfl
    · rfl
    · rw [List.eq_of_mem_replicate he]; rfl
  · intro h
    refine ⟨Event.LogInfo "result %d" [LogArg.int sub]
      :: List.replicate fuel (Event.sleep 5000), by simp [h], ?_⟩
    intro e he
    rcases List.mem_cons.mp he with rfl | he
    · exact ⟨rfl, by simp⟩
    · rw [List.eq_of_mem_replicate he]; exact ⟨rfl, by simp⟩

/-- C7. No error terminates the process: whatever `EstablishMqttSession` and
`SubscribeToTopic` return, `aws_iot_demo_main` has not returned after any number
of iterations of its final loop, and every run reaches that loop: after `fuel`
iterations exactly `fuel` calls `sleep(5000)` have been made, so the
`return` statement after the loop is never reached. -/
theorem aws_iot_demo_main_never_returns (est sub : Int) (fuel : Nat) :
    (shadow_demo_main.aws_iot_demo_main est sub fuel).1 = none
    ∧ (shadow_demo_main.aws_iot_demo_main est sub fuel).2.filterMap Event.sleepSeconds
        = List.replicate fuel 5000 := by
  rw [aws_iot_demo_main_eq]
  refine ⟨rfl, ?_⟩
  have hloop : ∀ n : Nat, (List.replicate n (Event.sleep 5000)).filterMap Event.sleepSeconds
      = List.replicate n 5000 := by
    intro n
    induction n with
    | zero => rfl
    | succ n ih => simp [List.replicate_succ, Event.sleepSeconds, ih]
  by_cases h : est = EXIT_FAILURE <;>
    simp [h, List.filterMap_append, hloop, Event.sleepSeconds]

/-! ## The topic subscribed to and the callback of `shadow_demo_main.c` -/

theorem not_matchesGrammar_subscribed (bound : Nat) :
    ¬ MatchesGrammar bound "$aws/things/saee/shadow/name/luz-gabriel" := by
  rintro ⟨t, s, o, u, -, -, h⟩
  have hlast : "$aws/things/saee/shadow/name/luz-gabriel".data.getLast? = some 'l' := by
    decide
  rw [h] at hlast
  rcases buildTopic_getLast t s o u with h' | h' | h' <;>
    · rw [h'] at hlast
      exact absurd hlast (by decide)

theorem demo_eventCallback_eq (pkt : MQTTPacketInfo_t) (info : MQTTDeserializedInfo_t) :
    shadow_demo_main.eventCallback pkt info
      = ({ messageType := ShadowMessageType_t.ShadowMessageTypeMaxNum,
           pThingName := none, thingNameLength := 0,
           pShadowName := none, shadowNameLength := 0,
           packetIdentifier := info.packetIdentifier },
         [Event.LogInfo "mensagem X" []]) :=
  rfl

/-- C8, at the failing input. When `EstablishMqttSession` returns `EXIT_SUCCESS`,
`aws_iot_demo_main` calls `SubscribeToTopic` with the topic
`$aws/things/saee/shadow/name/luz-gabriel`; that topic matches the grammar for no
thing, shadow, `op` and `sub` and for no length bound: it is what every grammar
topic of thing `saee` and shadow `luz-gabriel` starts with, with the `op`
segment missing. -/
theorem aws_iot_demo_main_subscribes_outside_grammar :
    (∀ (sub : Int) (fuel : Nat),
      Event.SubscribeToTopic "$aws/things/saee/shadow/name/luz-gabriel" 41
        ∈ (shadow_demo_main.aws_iot_demo_main EXIT_SUCCESS sub fuel).2)
    ∧ (∀ bound, ¬ MatchesGrammar bound "$aws/things/saee/shadow/name/luz-gabriel")
    ∧ ∀ (op : ShadowOp) (sub : Option ShadowSub),
        buildTopic "saee" (some "luz-gabriel") op sub
          = "$aws/things/saee/shadow/name/luz-gabriel" ++ "/" ++ op.text
              ++ (match sub with
                  | none => ""
                  | some s => "/" ++ s.text) := by
  refine ⟨fun sub fuel => ?_, not_matchesGrammar_subscribed, fun op sub => ?_⟩
  · rw [aws_iot_demo_main_eq]
    have h : ¬ EXIT_SUCCESS = EXIT_FAILURE := by decide
    simp [h]
  · cases op <;> rcases sub with _ | (_ | _ | _) <;> decide

/-- C9, at the failing input. The names `saee` and `luz-gabriel` are valid for every
bound of at least 11 and `update/delta` is the pair of `UpdateDelta`, but on
the topic built from them the callback leaves the message type at
`ShadowMessageTypeMaxNum` and both name pointers NULL with length 0: it returns
neither the thing name, nor the shadow name, nor the message type. -/
theorem eventCallback_no_round_trip :
    (∀ bound, 11 ≤ bound →
      validName bound "saee" = true ∧ validName bound "luz-gabriel" = true)
    ∧ messageTypeOf ShadowOp.update ShadowSub.delta
        = some ShadowMessageType_t.ShadowMessageTypeUpdateDelta
    ∧ buildTopic "saee" (some "luz-gabriel") ShadowOp.update (some ShadowSub.delta)
        = "$aws/things/saee/shadow/name/luz-gabriel/update/delta"
    ∧ (shadow_demo_main.eventCallback { type := 0x30 }
        { packetIdentifier := 1,
          pPublishInfo := some
            { pTopicName :=
                buildTopic "saee" (some "luz-gabriel") ShadowOp.update (some ShadowSub.delta),
              pPayload := deltaPayload 1 } }).1
      = { messageType := ShadowMessageType_t.ShadowMessageTypeMaxNum,
          pThingName := none, thingNameLength := 0,
          pShadowName := none, shadowNameLength := 0,
          packetIdentifier := 1 }
    ∧ ShadowMessageType_t.ShadowMessageTypeMaxNum
        ≠ ShadowMessageType_t.ShadowMessageTypeUpdateDelta := by
  refine ⟨fun bound hb => ?_, rfl, by decide, rfl, by decide⟩
  have h4 : "saee".length = 4 := by decide
  have h11 : "luz-gabriel".length = 11 := by decide
  have ha : "saee".data.all (fun c => c != '/' && !c.isWhitespace) = true := by decide
  have hb' : "luz-gabriel".data.all (fun c => c != '/' && !c.isWhitespace) = true := by decide
  constructor
  · simp only [validName, h4, ha, Bool.and_true, Bool.and_eq_true, decide_eq_true_eq]
    omega
  · simp only [validName, h11, hb', Bool.and_true, Bool.and_eq_true, decide_eq_true_eq]
    omega

/-- C10, at the failing input. An `update/accepted` message that carries the
client token 123456 is handled by the callback of `shadow_demo_main.c` without
the token being read: the message type stays `ShadowMessageTypeMaxNum`, one
line is logged, and the outcome is the very outcome of a message carrying the
other token 654321. So nothing that is read off the callback can confirm the
first message and not confirm the second. -/
theorem eventCallback_confirms_nothing :
    shadow_demo_main.eventCallback { type := 0x30 }
        { packetIdentifier := 1,
          pPublishInfo := some
            { pTopicName := "$aws/things/saee/shadow/name/luz-gabriel/update/accepted",
              pPayload := acceptedPayload 123456 } }
      = ({ messageType := ShadowMessageType_t.ShadowMessageTypeMaxNum,
           pThingName := none, thingNameLength := 0,
           pShadowName := none, shadowNameLength := 0,
           packetIdentifier := 1 },
         [Event.LogInfo "mensagem X" []])
    ∧ shadow_demo_main.eventCallback { type := 0x30 }
        { packetIdentifier := 1,
          pPublishInfo := some
            { pTopicName := "$aws/things/saee/shadow/name/luz-gabriel/update/accepted",
              pPayload := acceptedPayload 654321 } }
      = shadow_demo_main.eventCallback { type := 0x30 }
        { packetIdentifier := 1,
          pPublishInfo := some
            { pTopicName := "$aws/things/saee/shadow/name/luz-gabriel/update/accepted",
              pPayload := acceptedPayload 123456 } }
    ∧ ¬ ∃ confirmed : shadow_demo_main.Locals × List Event → Bool,
        confirmed (shadow_demo_main.eventCallback { type := 0x30 }
          { packetIdentifier := 1,
            pPublishInfo := some
              { pTopicName := "$aws/things/saee/shadow/name/luz-gabriel/update/accepted",
                pPayload := acceptedPayload 123456 } }) = true
        ∧ confirmed (shadow_demo_main.eventCallback { type := 0x30 }
            { packetIdentifier := 1,
              pPublishInfo := some
                { pTopicName := "$aws/things/saee/shadow/name/luz-gabriel/update/accepted",
                  pPayload := acceptedPayload 654321 } }) = false := by
  refine ⟨demo_eventCallback_eq _ _, ?_, ?_⟩
  · rw [demo_eventCallback_eq, demo_eventCallback_eq]
  · rintro ⟨confirmed, h1, h2⟩
    rw [demo_eventCallback_eq] at h1 h2
    rw [h1] at h2
    cases h2

/-! ## Packet dispatch, the light module, and the subscribe length -/

theorem land_mask_eq_of_div_eq (t t' : Nat) (h : t / 16 = t' / 16) :
    t &&& 0xF0 = t' &&& 0xF0 := by
  apply Nat.eq_of_testBit_eq
  intro i
  simp only [Nat.testBit_land]
  by_cases hi : i < 4
  · have hm : Nat.testBit 0xF0 i = false := by
      interval_cases i <;> decide
    simp [hm]
  · have hsh : ∀ n : Nat, n.testBit i = (n / 16).testBit (i - 4) := by
      intro n
      have h16 : n / 16 = n >>> 4 := by
        rw [Nat.shiftRight_eq_div_pow]
      rw [h16, Nat.testBit_shiftRight]
      congr 1
      omega
    rw [hsh t, hsh t', h]

/-- C11. Packet dispatch in `eventCallback` of `iot_main.c` is exclusive and
ignores the flag bits. For every type byte `t` and packet identifier `p`:
if `(t & 0xF0)` is `MQTT_PACKET_TYPE_PUBLISH` (and the publish information is
there, as the code asserts), the callback logs the topic and applies
`Toggle_light` once, so that its new events are that log line and one
`gpio_set_level`, and none is a call of `HandleOtherIncomingPacket`;
otherwise its one new event is the call of `HandleOtherIncomingPacket` with
the packet and `p`, and the light state is untouched. Two type bytes with the
same upper bits, differing only in the lower 4 bits, take the same branch and
leave the same light state. -/
theorem eventCallback_dispatch (d : Device) (t p : Nat)
    (pub : Option MQTTPublishInfo_t) :
    (t &&& 0xF0 = MQTT_PACKET_TYPE_PUBLISH → ∀ info, pub = some info →
      iot_main.eventCallback d { type := t } { packetIdentifier := p, pPublishInfo := pub }
        = some (Toggle_light { d with trace := d.trace ++
            [Event.LogInfo "pPublishInfo->pTopicName:%s." [LogArg.str info.pTopicName]] })
      ∧ iot_main.eventCallback d { type := t } { packetIdentifier := p, pPublishInfo := pub }
        = some { s_led_state := if d.s_led_state = 0 then 1 else 0,
                 trace := d.trace ++
                   [Event.LogInfo "pPublishInfo->pTopicName:%s." [LogArg.str info.pTopicName],
                    Event.gpio_set_level BLINK_GPIO (if d.s_led_state = 0 then 1 else 0)] })
    ∧ (t &&& 0xF0 ≠ MQTT_PACKET_TYPE_PUBLISH →
      iot_main.eventCallback d { type := t } { packetIdentifier := p, pPublishInfo := pub }
        = some { s_led_state := d.s_led_state,
                 trace := d.trace ++ [Event.HandleOtherIncomingPacket t p] })
    ∧ ∀ t' : Nat, t / 16 = t' / 16 →
        (t &&& 0xF0 = MQTT_PACKET_TYPE_PUBLISH ↔ t' &&& 0xF0 = MQTT_PACKET_TYPE_PUBLISH)
        ∧ (iot_main.eventCallback d { type := t }
              { packetIdentifier := p, pPublishInfo := pub }).map Device.s_led_state
          = (iot_main.eventCallback d { type := t' }
              { packetIdentifier := p, pPublishInfo := pub }).map Device.s_led_state := by
  refine ⟨fun hpub info hinfo => ?_, fun hne => ?_, fun t' ht => ?_⟩
  · subst hinfo
    exact ⟨by simp [iot_main.eventCallback, hpub],
      eventCallback_publish d { type := t } _ info hpub rfl⟩
  · simp [iot_main.eventCallback, hne]
  · have hmask := land_mask_eq_of_div_eq t t' ht
    refine ⟨by rw [hmask], ?_⟩
    simp only [iot_main.eventCallback, hmask]
    split <;> rfl

/-- Witness of C11: a publish with the dup, QoS and retain flags set (`0x3B`)
is dispatched to `Toggle_light`, as the plain publish `0x30` is. -/
theorem eventCallback_dispatch_witness :
    iot_main.eventCallback Device.init { type := 0x3B }
        { packetIdentifier := 5,
          pPublishInfo := some { pTopicName := "t", pPayload := "" } }
      = some (Toggle_light { Device.init with trace := Device.init.trace ++
          [Event.LogInfo "pPublishInfo->pTopicName:%s." [LogArg.str "t"]] }) :=
  ((eventCallback_dispatch Device.init 0x3B 5
      (some { pTopicName := "t", pPayload := "" })).1 (by decide)
      { pTopicName := "t", pPayload := "" } rfl).1

theorem toggled_le_one (s : Nat) :
    (if s = 0 then 1 else 0) = 0 ∨ (if s = 0 then 1 else 0) = 1 := by
  by_cases h : s = 0 <;> simp [h]

theorem LightOp_run_state (op : LightOp) (d : Device)
    (h : d.s_led_state = 0 ∨ d.s_led_state = 1) :
    (op.run d).s_led_state = 0 ∨ (op.run d).s_led_state = 1 := by
  cases op
  · exact h
  · exact toggled_le_one d.s_led_state

theorem runLight_state (ops : List LightOp) :
    ∀ d : Device, (d.s_led_state = 0 ∨ d.s_led_state = 1) →
      ((runLight ops d).s_led_state = 0 ∨ (runLight ops d).s_led_state = 1) := by
  induction ops with
  | nil => intro d h; exact h
  | cons op ops ih => intro d h; exact ih (op.run d) (LightOp_run_state op d h)

/-- C12. `Toggle_light` sets the GPIO level according to the state: on every
call the one new event is `gpio_set_level` for `BLINK_GPIO` with the value of
`s_led_state` after the call; that value is the logical negation of the value
before the call and is 0 or 1. `Configure_light` leaves `s_led_state`
unchanged, each operation of the module keeps `s_led_state` in {0, 1}, and so
does every sequence of operations from the initial state. -/
theorem Toggle_light_sets_level (d : Device) :
    (Toggle_light d).trace
        = d.trace ++ [Event.gpio_set_level BLINK_GPIO (Toggle_light d).s_led_state]
    ∧ (Toggle_light d).s_led_state = (if d.s_led_state = 0 then 1 else 0)
    ∧ ((Toggle_light d).s_led_state = 0 ∨ (Toggle_light d).s_led_state = 1)
    ∧ (Configure_light d).s_led_state = d.s_led_state
    ∧ (∀ op : LightOp, (d.s_led_state = 0 ∨ d.s_led_state = 1) →
        ((op.run d).s_led_state = 0 ∨ (op.run d).s_led_state = 1))
    ∧ ∀ ops : List LightOp,
        (runLight ops Device.init).s_led_state = 0
        ∨ (runLight ops Device.init).s_led_state = 1 :=
  ⟨rfl, rfl, toggled_le_one d.s_led_state, rfl, fun op h => LightOp_run_state op d h,
   fun ops => runLight_state ops Device.init (Or.inl rfl)⟩

theorem handlePackets_parity
    (packets : List (MQTTPacketInfo_t × MQTTDeserializedInfo_t)) :
    ∀ d : Device, (d.s_led_state = 0 ∨ d.s_led_state = 1) →
      (∀ q ∈ packets, iot_main.isPublish q.1 = true → q.2.pPublishInfo ≠ none) →
      ∃ d' : Device, iot_main.handlePackets d packets = some d'
        ∧ d'.s_led_state
          = (d.s_led_state + (packets.filter (fun q => iot_main.isPublish q.1)).length) % 2 := by
  induction packets with
  | nil =>
    intro d hd _
    refine ⟨d, rfl, ?_⟩
    rcases hd with h | h <;> simp [h]
  | cons q rest ih =>
    intro d hd hwf
    obtain ⟨pkt, info⟩ := q
    have hrest : ∀ q ∈ rest, iot_main.isPublish q.1 = true → q.2.pPublishInfo ≠ none :=
      fun q hq => hwf q (List.mem_cons_of_mem _ hq)
    by_cases hp : iot_main.isPublish pkt = true
    · have hpub : pkt.type &&& 0xF0 = MQTT_PACKET_TYPE_PUBLISH := of_decide_eq_true hp
      have hsome := hwf (pkt, info) (List.mem_cons_self _ _) hp
      obtain ⟨p, hinfo⟩ := Option.ne_none_iff_exists'.mp hsome
      have hcb := eventCallback_publish d pkt info p hpub hinfo
      obtain ⟨d', hd', hs⟩ := ih
        { s_led_state := if d.s_led_state = 0 then 1 else 0,
          trace := d.trace ++
            [Event.LogInfo "pPublishInfo->pTopicName:%s." [LogArg.str p.pTopicName],
             Event.gpio_set_level BLINK_GPIO (if d.s_led_state = 0 then 1 else 0)] }
        (toggled_le_one d.s_led_state) hrest
      refine ⟨d', by simp [iot_main.handlePackets, hcb, hd'], ?_⟩
      have hlen : ((pkt, info) :: rest).filter (fun q => iot_main.isPublish q.1)
          = (pkt, info) :: rest.filter (fun q => iot_main.isPublish q.1) := by
        simp [List.filter_cons, hp]
      rw [hs, hlen, List.length_cons]
      rcases hd with h | h <;> simp only [h] <;> simp <;> omega
    · have hne : ¬ pkt.type &&& 0xF0 = MQTT_PACKET_TYPE_PUBLISH := fun h =>
        hp (decide_eq_true h)
      have hcb : iot_main.eventCallback d pkt info
          = some { s_led_state := d.s_led_state,
                   trace := d.trace ++
                     [Event.HandleOtherIncomingPacket pkt.type info.packetIdentifier] } := by
        simp [iot_main.eventCallback, hne]
      obtain ⟨d', hd', hs⟩ := ih
        { s_led_state := d.s_led_state,
          trace := d.trace ++
            [Event.HandleOtherIncomingPacket pkt.type info.packetIdentifier] }
        hd hrest
      refine ⟨d', by simp [iot_main.handlePackets, hcb, hd'], ?_⟩
      have hlen : ((pkt, info) :: rest).filter (fun q => iot_main.isPublish q.1)
          = rest.filter (fun q => iot_main.isPublish q.1) := by
        simp [List.filter_cons, hp]
      rw [hs, hlen]

/-- C13. The light state is the parity of the number of publishes received:
from the initial state, after `eventCallback` of `iot_main.c` has handled any
sequence of packets (each publish with its publish information, as the code
asserts), `s_led_state` is the number of publish packets of the sequence
modulo 2, whatever the topics, the payloads and the packets in between.
`Toggle_light` twice restores a state in {0, 1}, but not every `uint8_t`
value: from 2 two calls give 1. -/
theorem light_state_is_parity
    (packets : List (MQTTPacketInfo_t × MQTTDeserializedInfo_t))
    (hwf : ∀ q ∈ packets, iot_main.isPublish q.1 = true → q.2.pPublishInfo ≠ none) :
    (∃ d' : Device, iot_main.handlePackets Device.init packets = some d'
      ∧ d'.s_led_state
        = (packets.filter (fun q => iot_main.isPublish q.1)).length % 2)
    ∧ (∀ d : Device, (d.s_led_state = 0 ∨ d.s_led_state = 1) →
        (Toggle_light (Toggle_light d)).s_led_state = d.s_led_state)
    ∧ (Toggle_light (Toggle_light { s_led_state := 2, trace := [] })).s_led_state = 1 := by
  refine ⟨?_, fun d hd => ?_, rfl⟩
  · obtain ⟨d', hd', hs⟩ := handlePackets_parity packets Device.init (Or.inl rfl) hwf
    refine ⟨d', hd', ?_⟩
    rw [hs]
    simp [Device.init]
  · rcases hd with h | h <;> simp [Toggle_light, h]

/-- Witness of C13: a publish, a SUBACK (`0x90`) and a publish with the QoS 1
flag; two publishes leave the light off. -/
theorem light_state_is_parity_witness :
    ∃ d' : Device,
      iot_main.handlePackets Device.init
        [({ type := 0x30 },
          { packetIdentifier := 1,
            pPublishInfo := some { pTopicName := "a", pPayload := "x" } }),
         ({ type := 0x90 }, { packetIdentifier := 2, pPublishInfo := none }),
         ({ type := 0x32 },
          { packetIdentifier := 3,
            pPublishInfo := some { pTopicName := "b", pPayload := "" } })] = some d'
      ∧ d'.s_led_state
        = ([(({ type := 0x30 } : MQTTPacketInfo_t),
              ({ packetIdentifier := 1,
                 pPublishInfo := some { pTopicName := "a", pPayload := "x" } } :
                MQTTDeserializedInfo_t)),
            ({ type := 0x90 }, { packetIdentifier := 2, pPublishInfo := none }),
            ({ type := 0x32 },
             { packetIdentifier := 3,
               pPublishInfo := some { pTopicName := "b", pPayload := "" } })].filter
            (fun q => iot_main.isPublish q.1)).length % 2 :=
  (light_state_is_parity
    [({ type := 0x30 },
      { packetIdentifier := 1,
        pPublishInfo := some { pTopicName := "a", pPayload := "x" } }),
     ({ type := 0x90 }, { packetIdentifier := 2, pPublishInfo := none }),
     ({ type := 0x32 },
      { packetIdentifier := 3,
        pPublishInfo := some { pTopicName := "b", pPayload := "" } })]
    (by
      intro q hq
      simp only [List.mem_cons, List.mem_singleton, List.not_mem_nil, or_false] at hq
      rcases hq with rfl | rfl | rfl
      · intro _; simp
      · intro h; exact absurd h (by decide)
      · intro _; simp)).1

/-- C14, at the failing input. When `EstablishMqttSession` returns `EXIT_SUCCESS`,
`aws_iot_demo_main` calls `SubscribeToTopic` with the topic
`$aws/things/saee/shadow/name/luz-gabriel`, of 40 characters, and the length 41:
the length is the `sizeof` of the string literal, which counts the terminating
NUL byte. In every run, every call of `SubscribeToTopic` passes the number of
characters of its topic plus one. -/
theorem aws_iot_demo_main_subscribe_length :
    (∀ (sub : Int) (fuel : Nat),
      Event.SubscribeToTopic "$aws/things/saee/shadow/name/luz-gabriel" 41
        ∈ (shadow_demo_main.aws_iot_demo_main EXIT_SUCCESS sub fuel).2)
    ∧ "$aws/things/saee/shadow/name/luz-gabriel".length = 40
    ∧ shadow_demo_main.sizeof_literal "$aws/things/saee/shadow/name/luz-gabriel" = 41
    ∧ ∀ (est sub : Int) (fuel : Nat) (topic : String) (len : Nat),
        Event.SubscribeToTopic topic len
          ∈ (shadow_demo_main.aws_iot_demo_main est sub fuel).2 →
        len = topic.length + 1 := by
  refine ⟨fun sub fuel => ?_, by decide, by decide, fun est sub fuel topic len hmem => ?_⟩
  · rw [aws_iot_demo_main_eq]
    have h : ¬ EXIT_SUCCESS = EXIT_FAILURE := by decide
    simp [h]
  · rw [aws_iot_demo_main_eq] at hmem
    have hlen : "$aws/things/saee/shadow/name/luz-gabriel".length = 40 := by decide
    by_cases h : est = EXIT_FAILURE
    · simp only [h, if_true, List.mem_append, List.mem_cons, List.mem_singleton,
        List.not_mem_nil, or_false] at hmem
      rcases hmem with (h1 | h1) | h1
      · cases h1
      · cases h1
      · cases List.eq_of_mem_replicate h1
    · simp only [h, if_false, List.mem_append, List.mem_cons, List.mem_singleton,
        List.not_mem_nil, or_false] at hmem
      rcases hmem with (h1 | h1 | h1) | h1
      · cases h1
      · cases h1
        rw [hlen]
      · cases h1
      · cases List.eq_of_mem_replicate h1

end XSaee
